import Mathlib

/-!
Verification of the deterministic meal-plan / workout-plan engine of the
personal fitness trainer repository.  The Python modules
`agent/nutrition_tools.py` and `agent/fitness_tools.py` are shallowly
embedded below: floats are modelled by exact rationals, Python `round`
(round-half-to-even) and `int` (truncation) are modelled explicitly, and the
global `random.choice` source is modelled by an explicit list of naturals
that is consumed one entry per selection (index taken modulo pool size).
-/

/-- Python `round(x)`: round half to even to an integer. -/
def pythonRound (q : ℚ) : ℤ :=
  if q - (⌊q⌋ : ℚ) < 1/2 then ⌊q⌋
  else if (1:ℚ)/2 < q - (⌊q⌋ : ℚ) then ⌊q⌋ + 1
  else if ⌊q⌋ % 2 = 0 then ⌊q⌋ else ⌊q⌋ + 1

/-- Python `round(x, 1)`: round half to even at one decimal digit. -/
def pythonRound1 (q : ℚ) : ℚ := (pythonRound (q * 10) : ℚ) / 10

/-- Python `int(x)` on a number: truncation toward zero. -/
def pyInt (q : ℚ) : ℤ := if 0 ≤ q then ⌊q⌋ else ⌈q⌉

/-- Python `s.lower()` (ASCII lowering, as in all strings this program uses). -/
def pyLower (s : String) : String := String.mk (s.toList.map Char.toLower)

/-- Python substring test `pat in s` on strings. -/
def pyInStr (pat s : String) : Bool := decide (List.IsInfix pat.toList s.toList)

/-! ## Nutrition database (`NUTRITION_DATABASE` in `nutrition_tools.py`) -/

/-- A food entry of `NUTRITION_DATABASE`. -/
structure Food where
  name : String
  calories_per_100g : ℚ
  protein : ℚ
  carbs : ℚ
  fat : ℚ
  prep_time : ℕ
deriving DecidableEq, Repr

/-- Embeds `NUTRITION_DATABASE["proteins"]["lean_meats"]`. -/
def leanMeats : List Food :=
  [⟨"Chicken Breast", 165, 31, 0, 3.6, 15⟩,
   ⟨"Turkey Breast", 135, 30, 0, 1, 15⟩,
   ⟨"Lean Beef", 250, 26, 0, 15, 20⟩,
   ⟨"Salmon", 208, 25, 0, 12, 12⟩,
   ⟨"Tuna", 132, 28, 0, 1, 5⟩]

/-- Embeds `NUTRITION_DATABASE["proteins"]["dairy"]`. -/
def dairyFoods : List Food :=
  [⟨"Greek Yogurt", 97, 10, 4, 5, 0⟩,
   ⟨"Cottage Cheese", 98, 11, 3.4, 4.3, 0⟩,
   ⟨"Milk (2%)", 50, 3.4, 5, 2, 0⟩]

/-- Embeds `NUTRITION_DATABASE["proteins"]["plant_based"]`. -/
def plantBased : List Food :=
  [⟨"Tofu", 76, 8, 1.9, 4.8, 10⟩,
   ⟨"Lentils", 116, 9, 20, 0.4, 25⟩,
   ⟨"Chickpeas", 164, 8.9, 27, 2.6, 20⟩,
   ⟨"Quinoa", 120, 4.4, 22, 1.9, 15⟩]

/-- Embeds `NUTRITION_DATABASE["carbohydrates"]["complex"]`. -/
def complexCarbs : List Food :=
  [⟨"Brown Rice", 123, 2.6, 25, 0.9, 25⟩,
   ⟨"Sweet Potato", 86, 1.6, 20, 0.1, 25⟩,
   ⟨"Oats", 68, 2.4, 12, 1.4, 5⟩,
   ⟨"Whole Wheat Bread", 247, 13, 41, 4.2, 0⟩]

/-- Embeds `NUTRITION_DATABASE["carbohydrates"]["fruits"]`. -/
def fruitsList : List Food :=
  [⟨"Banana", 89, 1.1, 23, 0.3, 0⟩,
   ⟨"Apple", 52, 0.3, 14, 0.2, 0⟩,
   ⟨"Berries (mixed)", 57, 0.7, 14, 0.3, 0⟩]

/-- Embeds `NUTRITION_DATABASE["fats"]["healthy"]`. -/
def healthyFats : List Food :=
  [⟨"Avocado", 160, 2, 9, 15, 2⟩,
   ⟨"Nuts (mixed)", 607, 20, 22, 54, 0⟩,
   ⟨"Olive Oil", 884, 0, 0, 100, 0⟩,
   ⟨"Seeds (chia/flax)", 486, 17, 42, 31, 0⟩]

/-- Embeds `NUTRITION_DATABASE["vegetables"]`. -/
def vegetablesList : List Food :=
  [⟨"Broccoli", 34, 2.8, 7, 0.4, 8⟩,
   ⟨"Spinach", 23, 2.9, 3.6, 0.4, 3⟩,
   ⟨"Bell Peppers", 31, 1, 7, 0.3, 5⟩,
   ⟨"Carrots", 41, 0.9, 10, 0.2, 5⟩,
   ⟨"Cucumber", 16, 0.7, 4, 0.1, 2⟩]

/-! ## `_get_foods_by_type` -/

/-- The animal-product exclusion list applied for the "vegan" restriction. -/
def animalProducts : List String :=
  ["Chicken Breast", "Turkey Breast", "Lean Beef", "Salmon", "Tuna",
   "Greek Yogurt", "Cottage Cheese", "Milk (2%)"]

/-- The meat/fish exclusion list applied for the "vegetarian" restriction. -/
def meatFish : List String :=
  ["Chicken Breast", "Turkey Breast", "Lean Beef", "Salmon", "Tuna"]

/-- First block of `_get_foods_by_type`: build `all_foods` from the category. -/
def baseFoods (food_type : String) (restrictions : List String) : List Food :=
  if food_type = "proteins" then
    leanMeats
      ++ (if "vegetarian" ∉ restrictions ∧ "vegan" ∉ restrictions then dairyFoods else [])
      ++ (if "vegan" ∈ restrictions ∨ "vegetarian" ∈ restrictions then plantBased else [])
  else if food_type = "carbohydrates" then complexCarbs ++ fruitsList
  else if food_type = "fats" then healthyFats
  else []

/-- Second block of `_get_foods_by_type`: the vegan / vegetarian filters. -/
def restrictionFilter (restrictions : List String) (l : List Food) : List Food :=
  if "vegan" ∈ restrictions then
    l.filter (fun f => decide (f.name ∉ animalProducts))
  else if "vegetarian" ∈ restrictions then
    l.filter (fun f => decide (f.name ∉ meatFish))
  else l

/-- Third block of `_get_foods_by_type`: the gluten-free filter. -/
def glutenFilter (restrictions : List String) (l : List Food) : List Food :=
  if "gluten_free" ∈ restrictions then
    l.filter (fun f => ! pyInStr "Wheat" f.name)
  else l

/-- Embeds `_get_foods_by_type(food_type, restrictions)`. -/
def getFoodsByType (food_type : String) (restrictions : List String) : List Food :=
  glutenFilter restrictions (restrictionFilter restrictions (baseFoods food_type restrictions))

/-- Claim C2 (counterexample): with restrictions = ["vegetarian"] the
protein pool does NOT contain the dairy item "Greek Yogurt", contrary to the
claim that the dairy items are still contained. -/
theorem c2_counterexample :
    ¬ ∃ f ∈ getFoodsByType "proteins" ["vegetarian"], f.name = "Greek Yogurt" := by
  decide

/-- Claim C2 (amended): when dietary restrictions contain "vegetarian" and not
"vegan", the protein pool excludes the meat/fish items AND the dairy items
(dairy is only added when neither "vegetarian" nor "vegan" is present): the
pool is exactly the plant-based list (Tofu, Lentils, Chickpeas, Quinoa). -/
theorem c2_vegetarian_protein_pool (restrictions : List String)
    (h1 : "vegetarian" ∈ restrictions) (h2 : "vegan" ∉ restrictions) :
    getFoodsByType "proteins" restrictions = plantBased := by
  unfold getFoodsByType
  have hbase : baseFoods "proteins" restrictions = leanMeats ++ plantBased := by
    unfold baseFoods
    rw [if_pos rfl, if_neg (by simp [h1]), if_pos (Or.inr h1)]
    simp
  have hrestr : restrictionFilter restrictions (leanMeats ++ plantBased) = plantBased := by
    unfold restrictionFilter
    rw [if_neg h2, if_pos h1]
    rfl
  rw [hbase, hrestr]
  unfold glutenFilter
  by_cases hg : "gluten_free" ∈ restrictions
  · rw [if_pos hg]; rfl
  · rw [if_neg hg]

/-- Witness for C2 (amended) at the concrete restriction list ["vegetarian"]. -/
theorem c2_vegetarian_protein_pool_witness :
    "vegetarian" ∈ ["vegetarian"] ∧ "vegan" ∉ ["vegetarian"] ∧
      getFoodsByType "proteins" ["vegetarian"] = plantBased :=
  ⟨by decide, by decide,
    c2_vegetarian_protein_pool ["vegetarian"] (by decide) (by decide)⟩

/-! ## Meal templates (`MEAL_TEMPLATES`) -/

/-- Embeds `MEAL_TEMPLATES["weight_loss"]`. -/
def weightLossTemplate : List (String × List String) :=
  [("breakfast", ["protein", "complex_carbs", "healthy_fats"]),
   ("lunch", ["lean_protein", "vegetables", "complex_carbs"]),
   ("dinner", ["lean_protein", "vegetables", "minimal_carbs"]),
   ("snacks", ["protein", "fruits"])]

/-- Embeds `MEAL_TEMPLATES["muscle_gain"]`. -/
def muscleGainTemplate : List (String × List String) :=
  [("breakfast", ["protein", "complex_carbs", "healthy_fats"]),
   ("lunch", ["protein", "complex_carbs", "vegetables"]),
   ("dinner", ["protein", "complex_carbs", "vegetables"]),
   ("snacks", ["protein", "nuts", "fruits"])]

/-- Embeds `MEAL_TEMPLATES["maintenance"]`. -/
def maintenanceTemplate : List (String × List String) :=
  [("breakfast", ["protein", "complex_carbs"]),
   ("lunch", ["balanced_protein", "vegetables", "complex_carbs"]),
   ("dinner", ["protein", "vegetables", "moderate_carbs"]),
   ("snacks", ["fruits", "nuts"])]

/-- Embeds `MEAL_TEMPLATES` as an association list. -/
def mealTemplates : List (String × List (String × List String)) :=
  [("weight_loss", weightLossTemplate),
   ("muscle_gain", muscleGainTemplate),
   ("maintenance", maintenanceTemplate)]

/-- Embeds `MEAL_TEMPLATES.get(goal, MEAL_TEMPLATES["maintenance"])`. -/
def templateFor (goal : String) : List (String × List String) :=
  (mealTemplates.lookup goal).getD maintenanceTemplate

/-- Embeds `template.get(meal_type, ["protein", "carbs", "vegetables"])`. -/
def mealComponentsFor (goal meal_type : String) : List String :=
  ((templateFor goal).lookup meal_type).getD ["protein", "carbs", "vegetables"]

/-! ## `_create_single_meal` -/

/-- An entry of the `foods` list built by `_create_single_meal`. -/
structure MealFood where
  name : String
  portion_grams : ℚ
  calories : ℤ
  protein : ℚ
  carbs : ℚ
  fat : ℚ
  prep_time : ℕ
deriving DecidableEq, Repr

/-- The loop state of `_create_single_meal`: the accumulator variables, the
remaining calorie budget and the random source. -/
structure MealState where
  foods : List MealFood
  total_calories : ℚ
  total_protein : ℚ
  total_carbs : ℚ
  total_fat : ℚ
  remaining : ℚ
  rng : List ℕ
deriving DecidableEq, Repr

/-- Lines 316-336 of `nutrition_tools.py`: given the allocated
`component_calories` and the resolved food pool, select a food (if the pool
is non-empty), append it, and update the totals and the remaining budget.
When the pool is empty the state is returned unchanged. -/
def applyComponent (st : MealState) (component_calories : ℚ)
    (food_items : List Food) : MealState :=
  if h : food_items = [] then st
  else
    let idx := st.rng.headD 0 % food_items.length
    let food := food_items.get ⟨idx, Nat.mod_lt _ (List.length_pos.mpr h)⟩
    let portion_size := component_calories / food.calories_per_100g * 100
    { foods := st.foods ++
      [{ name := food.name,
         portion_grams := pythonRound1 portion_size,
         calories := pythonRound component_calories,
         protein := pythonRound1 (food.protein * portion_size / 100),
         carbs := pythonRound1 (food.carbs * portion_size / 100),
         fat := pythonRound1 (food.fat * portion_size / 100),
         prep_time := food.prep_time }],
      total_calories := st.total_calories + component_calories,
      total_protein := st.total_protein + food.protein * portion_size / 100,
      total_carbs := st.total_carbs + food.carbs * portion_size / 100,
      total_fat := st.total_fat + food.fat * portion_size / 100,
      remaining := st.remaining - component_calories,
      rng := st.rng.tail }

/-- Lines 289-314 of `nutrition_tools.py`: allocate calories and resolve the
candidate pool for a component tag; `none` for unrecognized tags (the
`continue` branch). -/
def resolveComponent (component : String) (restrictions : List String)
    (remaining : ℚ) : Option (ℚ × List Food) :=
  if component ∈ ["protein", "lean_protein", "balanced_protein"] then
    some (min (remaining * 0.3) remaining, getFoodsByType "proteins" restrictions)
  else if component ∈ ["complex_carbs", "carbs", "moderate_carbs", "minimal_carbs"] then
    some
      (if pyInStr "minimal" component then min (remaining * 0.15) remaining
       else if pyInStr "moderate" component then min (remaining * 0.25) remaining
       else min (remaining * 0.4) remaining,
       getFoodsByType "carbohydrates" restrictions)
  else if component ∈ ["healthy_fats", "fats"] then
    some (min (remaining * 0.25) remaining, getFoodsByType "fats" restrictions)
  else if component = "vegetables" then
    some (min (remaining * 0.2) remaining, vegetablesList)
  else if component ∈ ["fruits", "nuts"] then
    some (min (remaining * 0.15) remaining,
      if component = "fruits" then fruitsList
      else healthyFats.filter (fun f => pyInStr "nuts" (pyLower f.name)))
  else none

/-- One iteration of the component loop of `_create_single_meal` (without the
`remaining <= 0` break check, which lives in `mealLoop`). -/
def processComponent (restrictions : List String) (st : MealState)
    (component : String) : MealState :=
  match resolveComponent component restrictions st.remaining with
  | Option.none => st
  | some (cc, pool) => applyComponent st cc pool

/-- The component loop of `_create_single_meal`, including the
`if remaining_calories <= 0: break` check. -/
def mealLoop (restrictions : List String) : MealState → List String → MealState
  | st, [] => st
  | st, c :: cs =>
    if st.remaining ≤ 0 then st
    else mealLoop restrictions (processComponent restrictions st c) cs

/-- The dictionary returned by `_create_single_meal`. -/
structure Meal where
  foods : List MealFood
  total_calories : ℤ
  protein : ℚ
  carbohydrates : ℚ
  fat : ℚ
deriving DecidableEq, Repr

/-- Embeds `_create_single_meal(target_calories, goal, meal_type, restrictions)`;
also returns the remaining random source. -/
def createSingleMeal (target_calories : ℤ) (goal meal_type : String)
    (restrictions : List String) (rng : List ℕ) : Meal × List ℕ :=
  let st := mealLoop restrictions
    { foods := [], total_calories := 0, total_protein := 0, total_carbs := 0,
      total_fat := 0, remaining := (target_calories : ℚ), rng := rng }
    (mealComponentsFor goal meal_type)
  ({ foods := st.foods,
     total_calories := pythonRound st.total_calories,
     protein := pythonRound1 st.total_protein,
     carbohydrates := pythonRound1 st.total_carbs,
     fat := pythonRound1 st.total_fat }, st.rng)

/-! ## Facts about the component step -/

/-- The fixed fraction of the remaining budget allocated to each recognized
component tag of `_create_single_meal` (`none` for unrecognized tags). -/
def componentFraction (component : String) : Option ℚ :=
  if component ∈ ["protein", "lean_protein", "balanced_protein"] then some 0.3
  else if component = "minimal_carbs" then some 0.15
  else if component = "moderate_carbs" then some 0.25
  else if component ∈ ["complex_carbs", "carbs"] then some 0.4
  else if component ∈ ["healthy_fats", "fats"] then some 0.25
  else if component = "vegetables" then some 0.2
  else if component ∈ ["fruits", "nuts"] then some 0.15
  else none

/-- Sum of the per-food `calories` values of a foods list. -/
def calSum (foods : List MealFood) : ℤ := (foods.map (fun f => f.calories)).sum

theorem applyComponent_remaining (st : MealState) (cc : ℚ) (pool : List Food)
    (h : pool ≠ []) :
    (applyComponent st cc pool).remaining = st.remaining - cc := by
  unfold applyComponent
  rw [dif_neg h]

theorem applyComponent_calSum (st : MealState) (cc : ℚ) (pool : List Food)
    (h : pool ≠ []) :
    calSum (applyComponent st cc pool).foods = calSum st.foods + pythonRound cc := by
  unfold applyComponent
  rw [dif_neg h]
  simp [calSum]

theorem applyComponent_empty (st : MealState) (cc : ℚ) :
    applyComponent st cc [] = st := by
  unfold applyComponent
  rw [dif_pos rfl]

theorem mem_glutenFilter {x : Food} {l : List Food} (rs : List String)
    (hx : x ∈ l) (hw : pyInStr "Wheat" x.name = false) : x ∈ glutenFilter rs l := by
  unfold glutenFilter
  split
  · exact List.mem_filter.mpr ⟨hx, by simp [hw]⟩
  · exact hx

theorem mem_restrictionFilter {x : Food} {l : List Food} (rs : List String)
    (hx : x ∈ l) (h1 : x.name ∉ animalProducts) (h2 : x.name ∉ meatFish) :
    x ∈ restrictionFilter rs l := by
  unfold restrictionFilter
  split
  · exact List.mem_filter.mpr ⟨hx, by simp [h1]⟩
  · split
    · exact List.mem_filter.mpr ⟨hx, by simp [h2]⟩
    · exact hx

theorem restrictionFilter_id {l : List Food} (rs : List String)
    (h1 : "vegan" ∉ rs) (h2 : "vegetarian" ∉ rs) : restrictionFilter rs l = l := by
  unfold restrictionFilter
  rw [if_neg h1, if_neg h2]

/-- Whatever the restrictions are, the protein pool is never empty. -/
theorem proteins_pool_ne (rs : List String) : getFoodsByType "proteins" rs ≠ [] := by
  have hex : ∃ x, x ∈ getFoodsByType "proteins" rs := by
    by_cases h : "vegan" ∈ rs ∨ "vegetarian" ∈ rs
    · refine ⟨⟨"Tofu", 76, 8, 1.9, 4.8, 10⟩, ?_⟩
      unfold getFoodsByType
      refine mem_glutenFilter rs (mem_restrictionFilter rs ?_ (by decide) (by decide))
        (by decide)
      unfold baseFoods
      rw [if_pos rfl, if_pos h]
      exact List.mem_append.mpr (Or.inr (by unfold plantBased; exact List.Mem.head _))
    · refine ⟨⟨"Chicken Breast", 165, 31, 0, 3.6, 15⟩, ?_⟩
      push_neg at h
      unfold getFoodsByType
      rw [restrictionFilter_id rs h.1 h.2]
      refine mem_glutenFilter rs ?_ (by decide)
      unfold baseFoods
      rw [if_pos rfl]
      exact List.mem_append.mpr
        (Or.inl (List.mem_append.mpr (Or.inl (by unfold leanMeats; exact List.Mem.head _))))
  rcases hex with ⟨x, hx⟩
  intro hempty
  rw [hempty] at hx
  exact List.not_mem_nil x hx

/-- Whatever the restrictions are, the carbohydrate pool is never empty. -/
theorem carbs_pool_ne (rs : List String) : getFoodsByType "carbohydrates" rs ≠ [] := by
  have hx : (⟨"Banana", 89, 1.1, 23, 0.3, 0⟩ : Food) ∈ getFoodsByType "carbohydrates" rs := by
    unfold getFoodsByType
    refine mem_glutenFilter rs (mem_restrictionFilter rs ?_ (by decide) (by decide))
      (by decide)
    unfold baseFoods
    rw [if_neg (by decide), if_pos rfl]
    exact List.mem_append.mpr (Or.inr (by unfold fruitsList; exact List.Mem.head _))
  intro hempty
  rw [hempty] at hx
  exact List.not_mem_nil _ hx

/-- Whatever the restrictions are, the fats pool is never empty. -/
theorem fats_pool_ne (rs : List String) : getFoodsByType "fats" rs ≠ [] := by
  have hx : (⟨"Avocado", 160, 2, 9, 15, 2⟩ : Food) ∈ getFoodsByType "fats" rs := by
    unfold getFoodsByType
    refine mem_glutenFilter rs (mem_restrictionFilter rs ?_ (by decide) (by decide))
      (by decide)
    unfold baseFoods
    rw [if_neg (by decide), if_neg (by decide), if_pos rfl]
    exact (by unfold healthyFats; exact List.Mem.head _)
  intro hempty
  rw [hempty] at hx
  exact List.not_mem_nil _ hx

theorem vegetables_pool_ne : vegetablesList ≠ [] := by
  intro h
  exact absurd (congrArg List.length h) (by decide)

theorem fruits_pool_ne : fruitsList ≠ [] := by
  intro h
  exact absurd (congrArg List.length h) (by decide)

theorem nuts_pool_ne : healthyFats.filter (fun f => pyInStr "nuts" (pyLower f.name)) ≠ [] := by
  intro h
  exact absurd (congrArg List.length h) (by decide)

/-- Shared leaf step: processing a component whose allocation is the fraction
`g` of the remaining budget, with a non-empty pool. -/
theorem applyComponent_leaf (st : MealState) (g : ℚ) (pool : List Food)
    (hg0 : 0 ≤ g) (hg1 : g ≤ 1) (hr : 0 < st.remaining) (hp : pool ≠ []) :
    (applyComponent st (min (st.remaining * g) st.remaining) pool).remaining
        = st.remaining - g * st.remaining ∧
    calSum (applyComponent st (min (st.remaining * g) st.remaining) pool).foods
        = calSum st.foods + pythonRound (g * st.remaining) := by
  have hmin : min (st.remaining * g) st.remaining = st.remaining * g :=
    min_eq_left (by nlinarith)
  rw [hmin, mul_comm st.remaining g]
  exact ⟨applyComponent_remaining st _ pool hp, applyComponent_calSum st _ pool hp⟩

/-- For every recognized component tag and arbitrary restrictions, the
component step decrements the remaining budget by the allocated fraction and
appends exactly one food whose recorded calories are the rounded allocation
(the candidate pool is never empty for the shipped database). -/
theorem processComponent_spec (rs : List String) (st : MealState) (component : String)
    (f : ℚ) (hf : componentFraction component = some f) (hr : 0 < st.remaining) :
    (processComponent rs st component).remaining = st.remaining - f * st.remaining ∧
    calSum (processComponent rs st component).foods
      = calSum st.foods + pythonRound (f * st.remaining) := by
  unfold componentFraction at hf
  unfold processComponent resolveComponent
  split at hf
  case isTrue h =>
    injection hf with hf
    subst hf
    rw [if_pos h]
    exact applyComponent_leaf st 0.3 _ (by norm_num) (by norm_num) hr (proteins_pool_ne rs)
  case isFalse h1 =>
    split at hf
    case isTrue h2 =>
      injection hf with hf
      subst hf
      subst h2
      rw [if_neg h1, if_pos (by decide), if_pos (by decide)]
      exact applyComponent_leaf st 0.15 _ (by norm_num) (by norm_num) hr (carbs_pool_ne rs)
    case isFalse h2 =>
      split at hf
      case isTrue h3 =>
        injection hf with hf
        subst hf
        subst h3
        rw [if_neg h1, if_pos (by decide), if_neg (by decide), if_pos (by decide)]
        exact applyComponent_leaf st 0.25 _ (by norm_num) (by norm_num) hr (carbs_pool_ne rs)
      case isFalse h3 =>
        split at hf
        case isTrue h4 =>
          injection hf with hf
          subst hf
          have h4 : component = "complex_carbs" ∨ component = "carbs" := by
            simpa using h4
          rcases h4 with h4 | h4 <;> subst h4 <;>
            rw [if_neg h1, if_pos (by decide), if_neg (by decide), if_neg (by decide)] <;>
            exact applyComponent_leaf st 0.4 _ (by norm_num) (by norm_num) hr (carbs_pool_ne rs)
        case isFalse h4 =>
          split at hf
          case isTrue h5 =>
            injection hf with hf
            subst hf
            have h5 : component = "healthy_fats" ∨ component = "fats" := by
              simpa using h5
            rcases h5 with h5 | h5 <;> subst h5 <;>
              rw [if_neg (by decide), if_neg (by decide), if_pos (by decide)] <;>
              exact applyComponent_leaf st 0.25 _ (by norm_num) (by norm_num) hr
                (fats_pool_ne rs)
          case isFalse h5 =>
            split at hf
            case isTrue h6 =>
              injection hf with hf
              subst hf
              subst h6
              rw [if_neg (by decide), if_neg (by decide), if_neg (by decide),
                if_pos (by decide)]
              exact applyComponent_leaf st 0.2 _ (by norm_num) (by norm_num) hr
                vegetables_pool_ne
            case isFalse h6 =>
              split at hf
              case isTrue h7 =>
                injection hf with hf
                subst hf
                have h7 : component = "fruits" ∨ component = "nuts" := by
                  simpa using h7
                rcases h7 with h7 | h7 <;> subst h7
                · rw [if_neg (by decide), if_neg (by decide), if_neg (by decide),
                    if_neg (by decide), if_pos (by decide), if_pos (by decide)]
                  exact applyComponent_leaf st 0.15 _ (by norm_num) (by norm_num) hr
                    fruits_pool_ne
                · rw [if_neg (by decide), if_neg (by decide), if_neg (by decide),
                    if_neg (by decide), if_pos (by decide), if_neg (by decide)]
                  exact applyComponent_leaf st 0.15 _ (by norm_num) (by norm_num) hr
                    nuts_pool_ne
              case isFalse h7 =>
                exact absurd hf (by simp)

/-- Claim C1 (counterexample): when the filtered food pool of a component is
empty, `_create_single_meal` does NOT decrement the remaining budget by the
allocated calories: with remaining budget 100 and allocation 30, the budget
stays 100 instead of dropping to 70 as the claim asserts. -/
theorem c1_counterexample :
    (applyComponent ⟨[], 0, 0, 0, 0, 100, []⟩ 30 []).remaining ≠ 100 - 30 := by
  rw [applyComponent_empty]
  norm_num

/-- Claim C1 (amended): for every recognized meal component, processing the
component decrements the remaining budget by the calories allocated to it
whenever a food was actually selected; with the shipped database the filtered
pool is never empty, so this holds for every recognized component of every
template.  When the pool is empty the budget is left unchanged (a missing
food does NOT consume its calorie slot). -/
theorem c1_budget_decrement (rs : List String) (st : MealState) (component : String)
    (f : ℚ) (hf : componentFraction component = some f) (hr : 0 < st.remaining) :
    (processComponent rs st component).remaining = st.remaining - f * st.remaining :=
  (processComponent_spec rs st component f hf hr).1

/-- Witness for C1 (amended) at component "protein" with remaining budget 100. -/
theorem c1_budget_decrement_witness :
    componentFraction "protein" = some 0.3 ∧ (0:ℚ) < 100 ∧
      (processComponent [] ⟨[], 0, 0, 0, 0, 100, []⟩ "protein").remaining
        = 100 - 0.3 * 100 :=
  ⟨rfl, by norm_num,
    c1_budget_decrement [] ⟨[], 0, 0, 0, 0, 100, []⟩ "protein" 0.3 rfl (by norm_num)⟩

/-! ## `calculate_daily_calories` -/

/-- The BMR formula of `calculate_daily_calories` (Mifflin-St Jeor): any
gender whose lowercase form is not "male" takes the female branch. -/
def bmrQ (weight_kg height_cm age : ℚ) (gender : String) : ℚ :=
  if pyLower gender = "male" then 10 * weight_kg + 6.25 * height_cm - 5 * age + 5
  else 10 * weight_kg + 6.25 * height_cm - 5 * age - 161

/-- Embeds `activity_multipliers.get(activity_level, 1.55)`. -/
def activityMultiplier (activity_level : String) : ℚ :=
  (([("sedentary", (1.2 : ℚ)), ("light", 1.375), ("moderate", 1.55),
     ("active", 1.725), ("very_active", 1.9)].lookup activity_level)).getD 1.55

/-- Embeds `tdee = bmr * activity_multipliers.get(activity_level, 1.55)`. -/
def tdeeQ (w h a : ℚ) (gender activity_level : String) : ℚ :=
  bmrQ w h a gender * activityMultiplier activity_level

/-- Goal adjustment of `calculate_daily_calories`. -/
def targetCaloriesQ (w h a : ℚ) (gender activity_level goal : String) : ℚ :=
  if goal = "weight_loss" then tdeeQ w h a gender activity_level - 500
  else if goal = "muscle_gain" then tdeeQ w h a gender activity_level + 300
  else tdeeQ w h a gender activity_level

/-- Macro ratio triple (protein, carb, fat) keyed by goal. -/
def macroRatios (goal : String) : ℚ × ℚ × ℚ :=
  if goal = "muscle_gain" then (0.30, 0.40, 0.30)
  else if goal = "weight_loss" then (0.35, 0.30, 0.35)
  else (0.25, 0.45, 0.30)

/-- One macronutrient block of the returned data. -/
structure MacroInfo where
  calories : ℤ
  grams : ℤ
  percentage : ℤ
deriving DecidableEq, Repr

/-- The `data` dictionary returned by `calculate_daily_calories`. -/
structure CalcData where
  bmr : ℤ
  tdee : ℤ
  target_calories : ℤ
  protein : MacroInfo
  carbohydrates : MacroInfo
  fats : MacroInfo
  goal : String
  activity_level : String
deriving DecidableEq, Repr

/-- Embeds `calculate_daily_calories` (typed inputs; with well-typed inputs the
`try` body cannot raise, so the success data is returned directly). -/
def calculateDailyCalories (w h a : ℚ) (gender activity_level goal : String) :
    CalcData :=
  let bmr := bmrQ w h a gender
  let tdee := tdeeQ w h a gender activity_level
  let target := targetCaloriesQ w h a gender activity_level goal
  let r := macroRatios goal
  { bmr := pythonRound bmr,
    tdee := pythonRound tdee,
    target_calories := pythonRound target,
    protein := ⟨pythonRound (target * r.1), pythonRound (target * r.1 / 4),
      pythonRound (r.1 * 100)⟩,
    carbohydrates := ⟨pythonRound (target * r.2.1), pythonRound (target * r.2.1 / 4),
      pythonRound (r.2.1 * 100)⟩,
    fats := ⟨pythonRound (target * r.2.2), pythonRound (target * r.2.2 / 9),
      pythonRound (r.2.2 * 100)⟩,
    goal := goal,
    activity_level := activity_level }

/-- Claim C3 (counterexample): for weight 70, height 175, age 30, male,
moderate activity, maintenance goal, the BMR is NOT 1727.5 and the reported
TDEE and target calories are NOT 2678. -/
theorem c3_counterexample :
    bmrQ 70 175 30 "male" ≠ 1727.5 ∧
    (calculateDailyCalories 70 175 30 "male" "moderate" "maintenance").tdee ≠ 2678 ∧
    (calculateDailyCalories 70 175 30 "male" "moderate" "maintenance").target_calories
      ≠ 2678 := by
  have hb : bmrQ 70 175 30 "male" = 1648.75 := by
    unfold bmrQ
    rw [if_pos (by decide)]
    norm_num
  have ht : tdeeQ 70 175 30 "male" "moderate" = 2555.5625 := by
    unfold tdeeQ
    rw [hb, show activityMultiplier "moderate" = 1.55 from rfl]
    norm_num
  have htr : targetCaloriesQ 70 175 30 "male" "moderate" "maintenance" = 2555.5625 := by
    unfold targetCaloriesQ
    rw [if_neg (by decide), if_neg (by decide), ht]
  have hround : pythonRound 2555.5625 = 2556 := by
    unfold pythonRound
    norm_num [Int.floor_eq_iff]
  refine ⟨by rw [hb]; norm_num, ?_, ?_⟩ <;>
    simp only [calculateDailyCalories, ht, htr, hround] <;> norm_num

/-- Claim C3 (amended): for weight 70, height 175, age 30, male, moderate
activity, maintenance goal, `calculate_daily_calories` computes
BMR = 1648.75 (reported rounded as 1649), TDEE = 2555.5625 (rounded to 2556)
and target_calories = 2556. -/
theorem c3_example_values :
    bmrQ 70 175 30 "male" = 1648.75 ∧
    (calculateDailyCalories 70 175 30 "male" "moderate" "maintenance").bmr = 1649 ∧
    (calculateDailyCalories 70 175 30 "male" "moderate" "maintenance").tdee = 2556 ∧
    (calculateDailyCalories 70 175 30 "male" "moderate" "maintenance").target_calories
      = 2556 := by
  have hb : bmrQ 70 175 30 "male" = 1648.75 := by
    unfold bmrQ
    rw [if_pos (by decide)]
    norm_num
  have ht : tdeeQ 70 175 30 "male" "moderate" = 2555.5625 := by
    unfold tdeeQ
    rw [hb, show activityMultiplier "moderate" = 1.55 from rfl]
    norm_num
  have htr : targetCaloriesQ 70 175 30 "male" "moderate" "maintenance" = 2555.5625 := by
    unfold targetCaloriesQ
    rw [if_neg (by decide), if_neg (by decide), ht]
  have hr1 : pythonRound 2555.5625 = 2556 := by
    unfold pythonRound
    norm_num [Int.floor_eq_iff]
  have hr2 : pythonRound 1648.75 = 1649 := by
    unfold pythonRound
    norm_num [Int.floor_eq_iff]
  exact ⟨hb, by simp only [calculateDailyCalories, hb, hr2],
    by simp only [calculateDailyCalories, ht, hr1],
    by simp only [calculateDailyCalories, htr, hr1]⟩

/-- Claim C4 (counterexample): the gender value "Male" is a value other than
"male", yet the BMR difference is 0, not 166 (case-insensitive recognition
treats it as male). -/
theorem c4_counterexample :
    ("Male" : String) ≠ "male" ∧
      bmrQ 70 175 30 "male" - bmrQ 70 175 30 "Male" ≠ 166 := by
  constructor
  · decide
  · unfold bmrQ
    rw [if_pos (by decide), if_pos (by decide)]
    norm_num

/-- Claim C4 (amended): for every weight, height and age, the BMR computed
with gender "male" exceeds the BMR computed with any gender value whose
lowercase form is not "male" by exactly 166. -/
theorem c4_bmr_gender_difference (w h a : ℚ) (g : String)
    (hg : pyLower g ≠ "male") :
    bmrQ w h a "male" - bmrQ w h a g = 166 := by
  unfold bmrQ
  rw [if_pos (by decide), if_neg hg]
  ring

/-- Witness for C4 (amended) at gender "female". -/
theorem c4_bmr_gender_difference_witness :
    pyLower "female" ≠ "male" ∧ bmrQ 70 175 30 "male" - bmrQ 70 175 30 "female" = 166 :=
  ⟨by decide, c4_bmr_gender_difference 70 175 30 "female" (by decide)⟩

/-! ## Calorie sum bound for `_create_single_meal` (claim C5) -/

/-- The fraction sequence of a component list (unrecognized tags dropped). -/
def fracList (components : List String) : List ℚ :=
  components.filterMap componentFraction

/-- The rounded-calorie sum contributed by a component loop run on the
fraction sequence, starting from remaining budget `r`. -/
def sumSpec : ℚ → List ℚ → ℤ
  | _, [] => 0
  | r, f :: fs => if r ≤ 0 then 0 else pythonRound (f * r) + sumSpec (r - f * r) fs

/-- Product of the budget factors left after each component. -/
def prodFactor (fs : List ℚ) : ℚ := (fs.map (fun f => 1 - f)).prod

theorem sumSpec_cons (r f : ℚ) (fs : List ℚ) :
    sumSpec r (f :: fs)
      = if r ≤ 0 then 0 else pythonRound (f * r) + sumSpec (r - f * r) fs := rfl

theorem sumSpec_nonpos (r : ℚ) (hr : r ≤ 0) (fs : List ℚ) : sumSpec r fs = 0 := by
  cases fs with
  | nil => rfl
  | cons f fs => unfold sumSpec; rw [if_pos hr]

theorem processComponent_none (rs : List String) (st : MealState) (c : String)
    (h : componentFraction c = Option.none) : processComponent rs st c = st := by
  unfold processComponent
  have hres : resolveComponent c rs st.remaining = Option.none := by
    unfold componentFraction at h
    split at h
    case isTrue h1 => exact absurd h (by simp)
    case isFalse h1 =>
      split at h
      case isTrue h2 => exact absurd h (by simp)
      case isFalse h2 =>
        split at h
        case isTrue h3 => exact absurd h (by simp)
        case isFalse h3 =>
          split at h
          case isTrue h4 => exact absurd h (by simp)
          case isFalse h4 =>
            split at h
            case isTrue h5 => exact absurd h (by simp)
            case isFalse h5 =>
              split at h
              case isTrue h6 => exact absurd h (by simp)
              case isFalse h6 =>
                split at h
                case isTrue h7 => exact absurd h (by simp)
                case isFalse h7 =>
                  have hc4 : c ∉ ["complex_carbs", "carbs", "moderate_carbs",
                      "minimal_carbs"] := by
                    intro hm
                    rcases (by simpa using hm) with hc | hc | hc | hc
                    · exact h4 (by simp [hc])
                    · exact h4 (by simp [hc])
                    · exact h3 hc
                    · exact h2 hc
                  unfold resolveComponent
                  rw [if_neg h1, if_neg hc4, if_neg h5, if_neg h6, if_neg h7]
  rw [hres]

/-- The rounded-calorie sum of the foods appended by the component loop is
exactly `sumSpec` of the fraction sequence. -/
theorem mealLoop_calSum (rs : List String) (cs : List String) (st : MealState) :
    calSum (mealLoop rs st cs).foods
      = calSum st.foods + sumSpec st.remaining (fracList cs) := by
  induction cs generalizing st with
  | nil => simp [mealLoop, fracList, sumSpec]
  | cons c cs ih =>
    unfold mealLoop
    by_cases hr : st.remaining ≤ 0
    · rw [if_pos hr, sumSpec_nonpos _ hr]
      ring
    · rw [if_neg hr]
      push_neg at hr
      rcases hcf : componentFraction c with _ | f
      · rw [processComponent_none rs st c hcf, ih]
        simp [fracList, List.filterMap_cons, hcf]
      · have hspec := processComponent_spec rs st c f hcf hr
        rw [ih, hspec.2, hspec.1]
        have hfl : fracList (c :: cs) = f :: fracList cs := by
          simp [fracList, List.filterMap_cons, hcf]
        rw [hfl, sumSpec_cons, if_neg (not_le.mpr hr)]
        ring

/-- Round-half-to-even never exceeds the value plus one half. -/
theorem pythonRound_le (q : ℚ) : (pythonRound q : ℚ) ≤ q + 1/2 := by
  unfold pythonRound
  have h1 : (⌊q⌋ : ℚ) ≤ q := Int.floor_le q
  have h2 : q < ⌊q⌋ + 1 := Int.lt_floor_add_one q
  split_ifs with hc1 hc2 hc3 <;> push_cast <;> linarith

theorem prodFactor_bounds (fs : List ℚ) (h : ∀ f ∈ fs, 0 ≤ f ∧ f ≤ 1) :
    0 ≤ prodFactor fs ∧ prodFactor fs ≤ 1 := by
  induction fs with
  | nil => simp [prodFactor]
  | cons f fs ih =>
    have hf := h f (List.mem_cons_self f fs)
    have ih2 := ih (fun g hg => h g (List.mem_cons_of_mem f hg))
    unfold prodFactor at ih2 ⊢
    rw [List.map_cons, List.prod_cons]
    constructor <;> nlinarith [ih2.1, ih2.2, hf.1, hf.2]

/-- The key bound: the rounded-calorie sum is at most the consumed part of the
budget plus one half per component. -/
theorem sumSpec_le_bound (fs : List ℚ) (h : ∀ f ∈ fs, 0 ≤ f ∧ f ≤ 1) :
    ∀ r : ℚ, 0 ≤ r →
      (sumSpec r fs : ℚ) ≤ (1 - prodFactor fs) * r + fs.length / 2 := by
  induction fs with
  | nil =>
    intro r hr
    simp [sumSpec, prodFactor]
  | cons f fs ih =>
    intro r hr
    have hf := h f (List.mem_cons_self f fs)
    have hP := prodFactor_bounds fs (fun g hg => h g (List.mem_cons_of_mem f hg))
    have hPc := prodFactor_bounds (f :: fs) h
    by_cases hr0 : r ≤ 0
    · rw [sumSpec_nonpos r hr0]
      have hl : (0 : ℚ) ≤ (f :: fs).length / 2 := by positivity
      push_cast at hl ⊢
      nlinarith [hPc.1, hPc.2]
    · push_neg at hr0
      rw [sumSpec_cons, if_neg (not_le.mpr hr0)]
      have hrec := ih (fun g hg => h g (List.mem_cons_of_mem f hg)) (r - f * r)
        (by nlinarith [hf.1, hf.2])
      have hround := pythonRound_le (f * r)
      unfold prodFactor at hP hrec ⊢
      rw [List.map_cons, List.prod_cons, List.length_cons]
      push_cast at hrec ⊢
      have key : f * r + 1/2 + ((1 - (List.map (fun f => 1 - f) fs).prod) * (r - f * r)
            + (fs.length : ℚ)/2)
          = (1 - (1 - f) * (List.map (fun f => 1 - f) fs).prod) * r
            + ((fs.length : ℚ) + 1)/2 := by ring
      linarith [hrec, hround, key]

/-- Combination lemma: a fraction list whose left-over budget factor is at
least 3/14 with at most 3 entries keeps the rounded sum below every integer
budget at least 7; together with the small cases this settles every
nonnegative integer budget. -/
theorem sumSpec_le_self (fs : List ℚ) (h : ∀ f ∈ fs, 0 ≤ f ∧ f ≤ 1)
    (hP : 3/14 ≤ prodFactor fs) (hlen : fs.length ≤ 3)
    (hsmall : ∀ s : ℤ, 0 ≤ s → s ≤ 6 → sumSpec (s : ℚ) fs ≤ s) :
    ∀ t : ℤ, 0 ≤ t → sumSpec (t : ℚ) fs ≤ t := by
  intro t ht
  by_cases h6 : t ≤ 6
  · exact hsmall t ht h6
  · push_neg at h6
    have h7 : (7 : ℚ) ≤ (t : ℚ) := by exact_mod_cast h6
    have htQ : (0 : ℚ) ≤ (t : ℚ) := by exact_mod_cast ht
    have hb := sumSpec_le_bound fs h (t : ℚ) htQ
    have hlenQ : ((fs.length : ℚ)) ≤ 3 := by exact_mod_cast hlen
    have hgoal : (sumSpec (t : ℚ) fs : ℚ) ≤ (t : ℚ) := by
      nlinarith [mul_le_mul_of_nonneg_right hP (le_trans (by norm_num) h7)]
    exact_mod_cast hgoal

theorem templateFor_cases (goal : String) :
    templateFor goal = weightLossTemplate ∨ templateFor goal = muscleGainTemplate ∨
      templateFor goal = maintenanceTemplate := by
  unfold templateFor mealTemplates
  cases hb1 : (goal == "weight_loss") <;> cases hb2 : (goal == "muscle_gain") <;>
    cases hb3 : (goal == "maintenance") <;> simp [List.lookup, hb1, hb2, hb3]

theorem mealComponents_cases (goal mt : String) :
    mealComponentsFor goal mt = ["protein", "complex_carbs", "healthy_fats"]
    ∨ mealComponentsFor goal mt = ["lean_protein", "vegetables", "complex_carbs"]
    ∨ mealComponentsFor goal mt = ["lean_protein", "vegetables", "minimal_carbs"]
    ∨ mealComponentsFor goal mt = ["protein", "fruits"]
    ∨ mealComponentsFor goal mt = ["protein", "complex_carbs", "vegetables"]
    ∨ mealComponentsFor goal mt = ["protein", "nuts", "fruits"]
    ∨ mealComponentsFor goal mt = ["protein", "complex_carbs"]
    ∨ mealComponentsFor goal mt = ["balanced_protein", "vegetables", "complex_carbs"]
    ∨ mealComponentsFor goal mt = ["protein", "vegetables", "moderate_carbs"]
    ∨ mealComponentsFor goal mt = ["fruits", "nuts"]
    ∨ mealComponentsFor goal mt = ["protein", "carbs", "vegetables"] := by
  unfold mealComponentsFor
  rcases templateFor_cases goal with h | h | h <;> rw [h]
  · unfold weightLossTemplate
    cases hb1 : (mt == "breakfast") <;> cases hb2 : (mt == "lunch") <;>
      cases hb3 : (mt == "dinner") <;> cases hb4 : (mt == "snacks") <;>
        simp [List.lookup, hb1, hb2, hb3, hb4]
  · unfold muscleGainTemplate
    cases hb1 : (mt == "breakfast") <;> cases hb2 : (mt == "lunch") <;>
      cases hb3 : (mt == "dinner") <;> cases hb4 : (mt == "snacks") <;>
        simp [List.lookup, hb1, hb2, hb3, hb4]
  · unfold maintenanceTemplate
    cases hb1 : (mt == "breakfast") <;> cases hb2 : (mt == "lunch") <;>
      cases hb3 : (mt == "dinner") <;> cases hb4 : (mt == "snacks") <;>
        simp [List.lookup, hb1, hb2, hb3, hb4]

theorem fracList_cases (goal mt : String) :
    fracList (mealComponentsFor goal mt) = [0.3, 0.4, 0.25]
    ∨ fracList (mealComponentsFor goal mt) = [0.3, 0.2, 0.4]
    ∨ fracList (mealComponentsFor goal mt) = [0.3, 0.2, 0.15]
    ∨ fracList (mealComponentsFor goal mt) = [0.3, 0.15]
    ∨ fracList (mealComponentsFor goal mt) = [0.3, 0.4, 0.2]
    ∨ fracList (mealComponentsFor goal mt) = [0.3, 0.15, 0.15]
    ∨ fracList (mealComponentsFor goal mt) = [0.3, 0.4]
    ∨ fracList (mealComponentsFor goal mt) = [0.3, 0.2, 0.25]
    ∨ fracList (mealComponentsFor goal mt) = [0.15, 0.15] := by
  rcases mealComponents_cases goal mt with h | h | h | h | h | h | h | h | h | h | h <;>
    rw [h]
  · exact Or.inl rfl
  · exact Or.inr (Or.inl rfl)
  · exact Or.inr (Or.inr (Or.inl rfl))
  · exact Or.inr (Or.inr (Or.inr (Or.inl rfl)))
  · exact Or.inr (Or.inr (Or.inr (Or.inr (Or.inl rfl))))
  · exact Or.inr (Or.inr (Or.inr (Or.inr (Or.inr (Or.inl rfl)))))
  · exact Or.inr (Or.inr (Or.inr (Or.inr (Or.inr (Or.inr (Or.inl rfl))))))
  · exact Or.inr (Or.inl rfl)
  · exact Or.inr (Or.inr (Or.inr (Or.inr (Or.inr (Or.inr (Or.inr (Or.inl rfl)))))))
  · exact Or.inr (Or.inr (Or.inr (Or.inr (Or.inr (Or.inr (Or.inr (Or.inr rfl)))))))
  · exact Or.inr (Or.inr (Or.inr (Or.inr (Or.inl rfl))))

/-- Claim C5 (counterexample): `_create_single_meal` with the (negative)
target -1 produces an empty foods list whose calorie sum 0 exceeds the target,
so the invariant "sum of per-food calories ≤ target" fails as stated. -/
theorem c5_counterexample :
    ¬ calSum (createSingleMeal (-1) "maintenance" "breakfast" [] []).1.foods ≤ -1 := by
  have hfoods : (createSingleMeal (-1) "maintenance" "breakfast" [] []).1.foods
      = (mealLoop [] ⟨[], 0, 0, 0, 0, ((-1 : ℤ) : ℚ), []⟩
          (mealComponentsFor "maintenance" "breakfast")).foods := rfl
  have hcomps : mealComponentsFor "maintenance" "breakfast"
      = ["protein", "complex_carbs"] := rfl
  have hloop : mealLoop [] ⟨[], 0, 0, 0, 0, ((-1 : ℤ) : ℚ), []⟩
      ["protein", "complex_carbs"]
      = ⟨[], 0, 0, 0, 0, ((-1 : ℤ) : ℚ), []⟩ := by
    unfold mealLoop
    rw [if_pos (by norm_num)]
  rw [hfoods, hcomps, hloop]
  simp [calSum]

/-- Claim C5 (amended): for every NONNEGATIVE meal target, every goal, meal
type, restriction list and every choice of the random food selection, the sum
of the per-food calorie values recorded in the meal produced by
`_create_single_meal` is at most the target calories of the meal. -/
theorem c5_meal_calories_le_target (t : ℤ) (goal meal_type : String)
    (rs : List String) (rng : List ℕ) (ht : 0 ≤ t) :
    calSum (createSingleMeal t goal meal_type rs rng).1.foods ≤ t := by
  have hfoods : (createSingleMeal t goal meal_type rs rng).1.foods
      = (mealLoop rs ⟨[], 0, 0, 0, 0, (t : ℚ), rng⟩
          (mealComponentsFor goal meal_type)).foods := rfl
  rw [hfoods, mealLoop_calSum]
  simp only [calSum, List.map_nil, List.sum_nil, zero_add]
  rcases fracList_cases goal meal_type with h | h | h | h | h | h | h | h | h <;>
    rw [h] <;>
    exact sumSpec_le_self _ (by intro f hf; fin_cases hf <;> norm_num)
      (by norm_num [prodFactor]) (by simp)
      (by intro s h0 h6; interval_cases s <;> norm_num [sumSpec, pythonRound]) t ht

/-- Witness for C5 (amended) at target 100, maintenance lunch, vegan, with a
concrete random source. -/
theorem c5_meal_calories_le_target_witness :
    (0 : ℤ) ≤ 100 ∧
      calSum (createSingleMeal 100 "maintenance" "lunch" ["vegan"] [2, 1, 0]).1.foods
        ≤ 100 :=
  ⟨by norm_num,
    c5_meal_calories_le_target 100 "maintenance" "lunch" ["vegan"] [2, 1, 0] (by norm_num)⟩

/-! ## `create_meal_plan` -/

/-- The per-slot calorie distribution table of `create_meal_plan`; any
`meals_per_day` outside 3/4/5 falls through to the 6-meal row. -/
def mealDistribution (meals_per_day : ℤ) : List ℚ :=
  if meals_per_day = 3 then [0.25, 0.45, 0.30]
  else if meals_per_day = 4 then [0.25, 0.35, 0.25, 0.15]
  else if meals_per_day = 5 then [0.20, 0.10, 0.35, 0.10, 0.25]
  else [0.20, 0.10, 0.30, 0.10, 0.20, 0.10]

/-- Embeds `"lunch" in MEAL_TEMPLATES.get(goal, {})`. -/
def templateHasLunch (goal : String) : Bool :=
  ((mealTemplates.lookup goal).getD []).any (fun p => p.1 == "lunch")

/-- Positional meal-type labelling of `create_meal_plan`. -/
def mealTypeLabel (goal : String) (idx total : ℕ) : String :=
  if idx = 0 then "Breakfast"
  else if idx = total - 1 then "Dinner"
  else if templateHasLunch goal ∧ idx = 1 then "Lunch"
  else "Snack"

/-- One meal entry of the daily meal list built by `create_meal_plan`. -/
structure PlannedMeal where
  meal_type : String
  target_calories : ℤ
  foods : List MealFood
  total_calories : ℤ
  protein : ℚ
  carbohydrates : ℚ
  fat : ℚ
deriving DecidableEq, Repr

/-- The inner meal loop of `create_meal_plan`: one meal per distribution
entry, threading the random source. -/
def buildMeals (t : ℤ) (goal : String) (rs : List String) (total : ℕ) :
    ℕ → List ℚ → List ℕ → List PlannedMeal × List ℕ
  | _, [], rng => ([], rng)
  | idx, pct :: rest, rng =>
    let meal_calories := pyInt ((t : ℚ) * pct)
    let label := mealTypeLabel goal idx total
    let res := createSingleMeal meal_calories goal (pyLower label) rs rng
    let others := buildMeals t goal rs total (idx + 1) rest res.2
    ({ meal_type := label,
       target_calories := meal_calories,
       foods := res.1.foods,
       total_calories := res.1.total_calories,
       protein := res.1.protein,
       carbohydrates := res.1.carbohydrates,
       fat := res.1.fat } :: others.1, others.2)

/-- Embeds `_calculate_daily_totals`. -/
structure DailyTotals where
  calories : ℤ
  protein : ℚ
  carbohydrates : ℚ
  fat : ℚ
deriving DecidableEq, Repr

/-- Embeds `_calculate_daily_totals(meals)`. -/
def calculateDailyTotals (meals : List PlannedMeal) : DailyTotals :=
  { calories := (meals.map (fun m => m.total_calories)).sum,
    protein := pythonRound1 (meals.map (fun m => m.protein)).sum,
    carbohydrates := pythonRound1 (meals.map (fun m => m.carbohydrates)).sum,
    fat := pythonRound1 (meals.map (fun m => m.fat)).sum }

/-- One day of the meal plan. -/
structure PlanDay where
  day : ℤ
  meals : List PlannedMeal
  daily_totals : DailyTotals
deriving DecidableEq, Repr

/-- The outer day loop of `create_meal_plan`. -/
def buildDays (t : ℤ) (goal : String) (rs : List String) (dist : List ℚ) :
    ℕ → ℕ → List ℕ → List PlanDay × List ℕ
  | 0, _, rng => ([], rng)
  | n + 1, dayIdx, rng =>
    let res := buildMeals t goal rs dist.length 0 dist rng
    let rest := buildDays t goal rs dist n (dayIdx + 1) res.2
    ({ day := (dayIdx : ℤ) + 1, meals := res.1,
       daily_totals := calculateDailyTotals res.1 } :: rest.1, rest.2)

/-- The `data` dictionary returned by `create_meal_plan` (with well-typed
inputs the `try` body cannot raise, so the success data is returned
directly). -/
structure MealPlanData where
  meal_plan : List PlanDay
  target_calories : ℤ
  goal : String
  dietary_restrictions : List String
  days : ℤ
deriving DecidableEq, Repr

/-- Embeds `create_meal_plan(target_calories, goal, dietary_restrictions,
meals_per_day, days)`. -/
def createMealPlan (target_calories : ℤ) (goal : String) (rs : List String)
    (meals_per_day : ℤ) (days : ℤ) (rng : List ℕ) : MealPlanData :=
  let dist := mealDistribution meals_per_day
  { meal_plan := (buildDays target_calories goal rs dist days.toNat 0 rng).1,
    target_calories := target_calories,
    goal := goal,
    dietary_restrictions := rs,
    days := days }

theorem buildMeals_length (t : ℤ) (goal : String) (rs : List String) (total : ℕ) :
    ∀ (dist : List ℚ) (idx : ℕ) (rng : List ℕ),
      (buildMeals t goal rs total idx dist rng).1.length = dist.length := by
  intro dist
  induction dist with
  | nil => intro idx rng; rfl
  | cons pct rest ih =>
    intro idx rng
    unfold buildMeals
    simp [ih]

theorem buildDays_meals_length (t : ℤ) (goal : String) (rs : List String)
    (dist : List ℚ) :
    ∀ (n dayIdx : ℕ) (rng : List ℕ),
      ∀ d ∈ (buildDays t goal rs dist n dayIdx rng).1, d.meals.length = dist.length := by
  intro n
  induction n with
  | zero => intro dayIdx rng d hd; exact absurd hd (List.not_mem_nil d)
  | succ n ih =>
    intro dayIdx rng d hd
    unfold buildDays at hd
    rcases List.mem_cons.mp hd with h | h
    · rw [h]
      exact buildMeals_length t goal rs dist.length dist 0 rng
    · exact ih (dayIdx + 1) _ d h

/-- Claim C6: for every goal among weight_loss / muscle_gain / maintenance
and every meals_per_day among 3..6, `create_meal_plan` produces exactly
`meals_per_day` meals in every planned day, and the per-slot calorie
fractions of the distribution used sum to 1. -/
theorem c6_meals_per_day_and_distribution (goal : String)
    (hg : goal ∈ ["weight_loss", "muscle_gain", "maintenance"]) (m : ℤ)
    (hm : m ∈ ([3, 4, 5, 6] : List ℤ)) (t days : ℤ) (rs : List String) (rng : List ℕ) :
    (∀ d ∈ (createMealPlan t goal rs m days rng).meal_plan,
        (d.meals.length : ℤ) = m)
      ∧ (mealDistribution m).sum = 1 := by
  have hdist : (mealDistribution m).length = m.toNat ∧ (mealDistribution m).sum = 1 := by
    fin_cases hm <;> exact ⟨by decide, by norm_num [mealDistribution]⟩
  constructor
  · intro d hd
    have hlen := buildDays_meals_length t goal rs (mealDistribution m) days.toNat 0 rng d hd
    rw [hlen, hdist.1]
    fin_cases hm <;> norm_num
  · exact hdist.2

/-- Witness for C6 at goal "maintenance", 4 meals per day, 2000 kcal, 2 days. -/
theorem c6_meals_per_day_and_distribution_witness :
    "maintenance" ∈ ["weight_loss", "muscle_gain", "maintenance"] ∧
      (4 : ℤ) ∈ ([3, 4, 5, 6] : List ℤ) ∧
      ((∀ d ∈ (createMealPlan 2000 "maintenance" [] 4 2 [0, 1]).meal_plan,
          (d.meals.length : ℤ) = 4)
        ∧ (mealDistribution 4).sum = 1) :=
  ⟨by decide, by decide,
    c6_meals_per_day_and_distribution "maintenance" (by decide) 4 (by decide) 2000 2 [] [0, 1]⟩

/-! ## Exercise catalog and `search_exercises` -/

/-- Modelled from the spec: one record of the exercise catalog.  The catalog
file `agent/data/exercises.json` is not part of the source tree; §6 of the
spec gives the per-record schema {name, category, level, equipment,
primaryMuscles, secondaryMuscles, instructions}, loaded once at startup.
The catalog itself is therefore modelled as an arbitrary list parameter. -/
structure Exercise where
  name : String
  category : String
  level : String
  equipment : String
  primaryMuscles : List String
  secondaryMuscles : List String
  instructions : List String
deriving DecidableEq, Repr

/-- Python slice `l[:limit]`: nonnegative limit takes a leading segment,
negative limit removes the last `|limit|` entries. -/
def pySliceTake {α : Type} (l : List α) (limit : ℤ) : List α :=
  if 0 ≤ limit then l.take limit.toNat
  else l.take (l.length - (-limit).toNat)

/-- The four filter stages of `search_exercises` (a `None` or falsy argument
skips its filter, as in Python truthiness). -/
def searchFiltered (catalog : List Exercise) (category level equipment : Option String)
    (muscle_groups : Option (List String)) : List Exercise :=
  let f1 := match category with
    | some c =>
      if c = "" then catalog
      else catalog.filter (fun ex => pyLower ex.category == pyLower c)
    | Option.none => catalog
  let f2 := match level with
    | some lv =>
      if lv = "" then f1
      else f1.filter (fun ex => pyLower ex.level == pyLower lv)
    | Option.none => f1
  let f3 := match equipment with
    | some eqp =>
      if eqp = "" then f2
      else f2.filter (fun ex => pyInStr (pyLower eqp) (pyLower ex.equipment))
    | Option.none => f2
  match muscle_groups with
  | some mgs =>
    if mgs.isEmpty then f3
    else f3.filter (fun ex => (ex.primaryMuscles ++ ex.secondaryMuscles).any
        (fun mg => (mgs.map pyLower).contains (pyLower mg)))
  | Option.none => f3

/-- The envelope returned by `search_exercises`. -/
inductive SearchResult where
  | success (exercises : List Exercise) (total_found : ℕ)
  | error (msg : String)
deriving DecidableEq, Repr

/-- Embeds `search_exercises(category, level, equipment, muscle_groups, limit)`
over a given catalog. -/
def searchExercises (catalog : List Exercise) (category level equipment : Option String)
    (muscle_groups : Option (List String)) (limit : ℤ) : SearchResult :=
  if catalog.isEmpty then SearchResult.error "Could not load exercises data"
  else
    let filtered := pySliceTake
      (searchFiltered catalog category level equipment muscle_groups) limit
    SearchResult.success filtered filtered.length

/-- The exercise list carried by a search result (empty on error). -/
def searchResultExercises : SearchResult → List Exercise
  | SearchResult.success l _ => l
  | SearchResult.error _ => []

theorem searchFiltered_cardio_beginner (catalog : List Exercise) :
    searchFiltered catalog (some "cardio") (some "beginner") Option.none Option.none
      = (catalog.filter (fun ex => pyLower ex.category == "cardio")).filter
          (fun ex => pyLower ex.level == "beginner") := rfl

/-- Claim C8: searching a (non-empty) catalog for category "cardio", level
"beginner" with limit 5 returns at most 5 exercises, each matching both
criteria case-insensitively, in catalog order. -/
theorem c8_search_cardio_beginner (catalog : List Exercise) (h : catalog ≠ []) :
    (searchResultExercises
        (searchExercises catalog (some "cardio") (some "beginner")
          Option.none Option.none 5)).length ≤ 5 ∧
    (∀ ex ∈ searchResultExercises
        (searchExercises catalog (some "cardio") (some "beginner")
          Option.none Option.none 5),
      pyLower ex.category = "cardio" ∧ pyLower ex.level = "beginner") ∧
    (searchResultExercises
        (searchExercises catalog (some "cardio") (some "beginner")
          Option.none Option.none 5)).Sublist catalog := by
  have hne : catalog.isEmpty = false := by
    cases catalog with
    | nil => exact absurd rfl h
    | cons a l => rfl
  have hres : searchResultExercises
      (searchExercises catalog (some "cardio") (some "beginner")
        Option.none Option.none 5)
      = ((catalog.filter (fun ex => pyLower ex.category == "cardio")).filter
          (fun ex => pyLower ex.level == "beginner")).take 5 := by
    unfold searchExercises
    rw [if_neg (by simp [hne])]
    unfold searchResultExercises pySliceTake
    rw [if_pos (by norm_num), searchFiltered_cardio_beginner]
    rfl
  rw [hres]
  refine ⟨List.length_take_le 5 _, ?_, ?_⟩
  · intro ex hex
    have hex2 := List.mem_of_mem_take hex
    have hlev := (List.mem_filter.mp hex2).2
    have hcat := (List.mem_filter.mp (List.mem_filter.mp hex2).1).2
    exact ⟨by simpa using hcat, by simpa using hlev⟩
  · exact ((List.take_sublist 5 _).trans (List.filter_sublist _)).trans
      (List.filter_sublist _)

/-- Witness for C8 on a one-entry catalog. -/
theorem c8_search_cardio_beginner_witness :
    ([⟨"Jumping Jacks", "cardio", "beginner", "body only", ["quadriceps"], [],
        []⟩] : List Exercise) ≠ [] ∧
    (searchResultExercises
        (searchExercises
          [⟨"Jumping Jacks", "cardio", "beginner", "body only", ["quadriceps"], [], []⟩]
          (some "cardio") (some "beginner") Option.none Option.none 5)).length ≤ 5 :=
  ⟨by simp,
    (c8_search_cardio_beginner
      [⟨"Jumping Jacks", "cardio", "beginner", "body only", ["quadriceps"], [], []⟩]
      (by simp)).1⟩

/-- Claim C10: `search_exercises` applies Python slice semantics to `limit`:
limit 0 yields a success envelope with an empty list, and a negative limit
returns the filtered matches with the last `|limit|` entries removed (so the
result size is not bounded by the limit). -/
theorem c10_slice_semantics (catalog : List Exercise) (h : catalog ≠ [])
    (category level equipment : Option String) (mgs : Option (List String))
    (limit : ℤ) (hneg : limit < 0) :
    searchExercises catalog category level equipment mgs 0
      = SearchResult.success [] 0 ∧
    searchResultExercises (searchExercises catalog category level equipment mgs limit)
      = (searchFiltered catalog category level equipment mgs).take
          ((searchFiltered catalog category level equipment mgs).length
            - (-limit).toNat) := by
  have hne : catalog.isEmpty = false := by
    cases catalog with
    | nil => exact absurd rfl h
    | cons a l => rfl
  constructor
  · unfold searchExercises
    rw [if_neg (by simp [hne])]
    unfold pySliceTake
    rw [if_pos le_rfl]
    simp
  · unfold searchExercises
    rw [if_neg (by simp [hne])]
    unfold searchResultExercises pySliceTake
    rw [if_neg (not_le.mpr hneg)]

/-- Witness for C10 on a two-entry catalog with limit -1. -/
theorem c10_slice_semantics_witness :
    (([⟨"A", "cardio", "beginner", "body only", [], [], []⟩,
       ⟨"B", "cardio", "beginner", "body only", [], [], []⟩] : List Exercise) ≠ []) ∧
    ((-1 : ℤ) < 0) ∧
    searchExercises
        [⟨"A", "cardio", "beginner", "body only", [], [], []⟩,
         ⟨"B", "cardio", "beginner", "body only", [], [], []⟩]
        Option.none Option.none Option.none Option.none 0
      = SearchResult.success [] 0 :=
  ⟨by simp, by norm_num,
    (c10_slice_semantics
      [⟨"A", "cardio", "beginner", "body only", [], [], []⟩,
       ⟨"B", "cardio", "beginner", "body only", [], [], []⟩]
      (by simp) Option.none Option.none Option.none Option.none (-1) (by norm_num)).1⟩

/-! ## `create_workout_plan` -/

/-- Embeds `max(3, min(duration_minutes // 3, 10))` with Python floor division. -/
def targetExerciseCount (duration_minutes : ℤ) : ℤ :=
  max 3 (min (Int.fdiv duration_minutes 3) 10)

/-- Embeds `_calculate_sets_reps(exercise_category, fitness_level)`. -/
def calculateSetsReps (category fitness_level : String) : ℤ × String :=
  if category = "cardio" then
    if fitness_level = "beginner" then (3, "30 seconds")
    else if fitness_level = "intermediate" then (4, "45 seconds")
    else (5, "60 seconds")
  else if category = "stretching" then (1, "30 seconds hold")
  else if category = "strength" then
    if fitness_level = "beginner" then (3, "8-10 reps")
    else if fitness_level = "intermediate" then (3, "10-12 reps")
    else (4, "12-15 reps")
  else
    if fitness_level = "beginner" then (2, "5-8 reps")
    else if fitness_level = "intermediate" then (3, "8-10 reps")
    else (4, "10-12 reps")

/-- Embeds `_estimate_calories(duration_minutes, workout_type, fitness_level)`. -/
def estimateCalories (duration_minutes : ℤ) (workout_type fitness_level : String) : ℤ :=
  let base_rate : ℚ :=
    (([("cardio", (8 : ℚ)), ("strength", 6), ("stretching", 3), ("plyometrics", 10),
       ("powerlifting", 7), ("olympic weightlifting", 7),
       ("strongman", 8)].lookup workout_type)).getD 6
  let level_multiplier : ℚ :=
    (([("beginner", (0.8 : ℚ)), ("intermediate", 1.0),
       ("expert", 1.2)].lookup fitness_level)).getD 1.0
  pyInt ((duration_minutes : ℚ) * base_rate * level_multiplier)

/-- Python `str.title()`: uppercase each letter that starts an alphabetic
run, lowercase the other letters. -/
def titleAux : List Char → Bool → List Char
  | [], _ => []
  | c :: cs, prevAlpha =>
    (if c.isAlpha then (if prevAlpha then c.toLower else c.toUpper) else c)
      :: titleAux cs c.isAlpha

/-- Python `s.title()`. -/
def pyTitle (s : String) : String := String.mk (titleAux s.toList false)

/-- State of the diversity-selection loop of `create_workout_plan`. -/
structure SelState where
  selected : List Exercise
  used : List String
  pool : List Exercise
  rng : List ℕ
deriving Repr

/-- The `available` list: pool entries whose primary muscles avoid every
already-used muscle. -/
def availablePool (s : SelState) : List Exercise :=
  s.pool.filter (fun ex => !(ex.primaryMuscles.any (fun m => s.used.contains m)))

/-- The `if available:` tail of one loop iteration: pick a random candidate
from `avail` (if any), append it, record its muscles and remove it from the
pool; `used1` is the used-muscle set after the possible reset. -/
def selectFrom (s : SelState) (used1 : List String) (avail : List Exercise) :
    SelState :=
  if h : avail = [] then { s with used := used1 }
  else
    { selected := s.selected ++
        [avail.get ⟨s.rng.headD 0 % avail.length, Nat.mod_lt _ (List.length_pos.mpr h)⟩],
      used := used1 ++
        (avail.get ⟨s.rng.headD 0 % avail.length,
          Nat.mod_lt _ (List.length_pos.mpr h)⟩).primaryMuscles,
      pool := s.pool.erase
        (avail.get ⟨s.rng.headD 0 % avail.length, Nat.mod_lt _ (List.length_pos.mpr h)⟩),
      rng := s.rng.tail }

/-- One iteration of the selection loop: restrict to muscle-disjoint
candidates, resetting the used-muscle set (and falling back to the whole
remaining pool) when none remain. -/
def selectStep (s : SelState) : SelState :=
  if (availablePool s).isEmpty then selectFrom s [] s.pool
  else selectFrom s s.used (availablePool s)

/-- Embeds `for _ in range(target_exercise_count)` around `selectStep`. -/
def selectLoop : ℕ → SelState → SelState
  | 0, s => s
  | n + 1, s => selectLoop n (selectStep s)

/-- One row of the exercise list of the workout plan. -/
structure WorkoutExercise where
  exercise : Exercise
  sets : ℤ
  reps : String
  rest_seconds : ℤ
deriving DecidableEq, Repr

/-- The `workout_plan` dictionary. -/
structure WorkoutPlan where
  title : String
  duration_minutes : ℤ
  exercises : List WorkoutExercise
  total_exercises : ℕ
  target_muscles : Option (List String)
  equipment_needed : String
  estimated_calories : ℤ
deriving DecidableEq, Repr

/-- The envelope returned by `create_workout_plan`. -/
inductive WorkoutResult where
  | success (plan : WorkoutPlan)
  | error (msg : String)
deriving DecidableEq, Repr

/-- Level filter of `create_workout_plan`. -/
def levelFilter (fitness_level : String) (l : List Exercise) : List Exercise :=
  l.filter (fun ex => pyLower ex.level == pyLower fitness_level)

/-- Category filter of `create_workout_plan` (skipped for "mixed"). -/
def typeFilter (workout_type : String) (l : List Exercise) : List Exercise :=
  if workout_type ≠ "mixed" then
    l.filter (fun ex => pyLower ex.category == pyLower workout_type)
  else l

/-- Equipment substring filter (skipped for a falsy argument). -/
def equipFilter (equipment : Option String) (l : List Exercise) : List Exercise :=
  match equipment with
  | some eqp =>
    if eqp = "" then l
    else l.filter (fun ex => pyInStr (pyLower eqp) (pyLower ex.equipment))
  | Option.none => l

/-- Primary-muscle membership filter (skipped for a falsy argument). -/
def musclesFilter (target_muscles : Option (List String)) (l : List Exercise) :
    List Exercise :=
  match target_muscles with
  | some mgs =>
    if mgs.isEmpty then l
    else l.filter (fun ex => ex.primaryMuscles.any
        (fun mg => (mgs.map pyLower).contains (pyLower mg)))
  | Option.none => l

/-- The filter stages of `create_workout_plan`. -/
def workoutFiltered (catalog : List Exercise) (fitness_level : String)
    (target_muscles : Option (List String)) (workout_type : String)
    (equipment : Option String) : List Exercise :=
  musclesFilter target_muscles
    (equipFilter equipment (typeFilter workout_type (levelFilter fitness_level catalog)))

/-- The exercises chosen by the diversity-selection loop. -/
def selectedExercises (catalog : List Exercise) (fitness_level : String)
    (target_muscles : Option (List String)) (workout_type : String)
    (duration_minutes : ℤ) (equipment : Option String) (rng : List ℕ) :
    List Exercise :=
  (selectLoop (targetExerciseCount duration_minutes).toNat
    { selected := [], used := [],
      pool := workoutFiltered catalog fitness_level target_muscles workout_type equipment,
      rng := rng }).selected

/-- The `workout_exercises` rows (sets/reps/rest per selected exercise). -/
def workoutExercisesList (catalog : List Exercise) (fitness_level : String)
    (target_muscles : Option (List String)) (workout_type : String)
    (duration_minutes : ℤ) (equipment : Option String) (rng : List ℕ) :
    List WorkoutExercise :=
  (selectedExercises catalog fitness_level target_muscles workout_type
      duration_minutes equipment rng).map (fun ex =>
    { exercise := ex,
      sets := (calculateSetsReps ex.category fitness_level).1,
      reps := (calculateSetsReps ex.category fitness_level).2,
      rest_seconds := if ex.category = "strength" then 60 else 30 })

/-- Embeds `create_workout_plan(fitness_level, target_muscles, workout_type,
duration_minutes, equipment)` over a given catalog. -/
def createWorkoutPlan (catalog : List Exercise) (fitness_level : String)
    (target_muscles : Option (List String)) (workout_type : String)
    (duration_minutes : ℤ) (equipment : Option String) (rng : List ℕ) :
    WorkoutResult :=
  if catalog.isEmpty then WorkoutResult.error "Could not load exercises data"
  else if (workoutFiltered catalog fitness_level target_muscles workout_type
      equipment).isEmpty then
    WorkoutResult.error "No exercises found matching criteria"
  else
    WorkoutResult.success
      { title := pyTitle fitness_level ++ " " ++ pyTitle workout_type ++ " Workout",
        duration_minutes := duration_minutes,
        exercises := workoutExercisesList catalog fitness_level target_muscles
          workout_type duration_minutes equipment rng,
        total_exercises := (workoutExercisesList catalog fitness_level target_muscles
          workout_type duration_minutes equipment rng).length,
        target_muscles := target_muscles,
        equipment_needed :=
          (match equipment with
           | some eqp => if eqp = "" then "Various" else eqp
           | Option.none => "Various"),
        estimated_calories :=
          estimateCalories duration_minutes workout_type fitness_level }

/-- The exercise rows carried by a workout result (empty on error). -/
def workoutPlanExercises : WorkoutResult → List WorkoutExercise
  | WorkoutResult.success p => p.exercises
  | WorkoutResult.error _ => []

theorem levelFilter_sublist (fl : String) (l : List Exercise) :
    List.Sublist (levelFilter fl l) l := List.filter_sublist l

theorem typeFilter_sublist (wt : String) (l : List Exercise) :
    List.Sublist (typeFilter wt l) l := by
  unfold typeFilter
  split
  · exact List.filter_sublist l
  · exact List.Sublist.refl l

theorem equipFilter_sublist (eqp : Option String) (l : List Exercise) :
    List.Sublist (equipFilter eqp l) l := by
  unfold equipFilter
  cases eqp with
  | none => exact List.Sublist.refl l
  | some e =>
    dsimp only
    split <;> first
      | exact List.Sublist.refl l
      | exact List.filter_sublist l

theorem musclesFilter_sublist (tm : Option (List String)) (l : List Exercise) :
    List.Sublist (musclesFilter tm l) l := by
  unfold musclesFilter
  cases tm with
  | none => exact List.Sublist.refl l
  | some mgs =>
    dsimp only
    split <;> first
      | exact List.Sublist.refl l
      | exact List.filter_sublist l

theorem selectFrom_invariant (s : SelState) (used1 : List String)
    (avail : List Exercise) (hsub : ∀ x ∈ avail, x ∈ s.pool)
    (h1 : s.pool.Nodup) (h2 : s.selected.Nodup)
    (h3 : ∀ x ∈ s.selected, x ∉ s.pool) :
    (selectFrom s used1 avail).pool.Nodup ∧ (selectFrom s used1 avail).selected.Nodup ∧
      (∀ x ∈ (selectFrom s used1 avail).selected, x ∉ (selectFrom s used1 avail).pool) ∧
      (selectFrom s used1 avail).selected.length ≤ s.selected.length + 1 := by
  unfold selectFrom
  split
  case isTrue h =>
    exact ⟨h1, h2, h3, by simp⟩
  case isFalse h =>
    have hexm : avail.get ⟨s.rng.headD 0 % avail.length,
        Nat.mod_lt _ (List.length_pos.mpr h)⟩ ∈ s.pool :=
      hsub _ (List.get_mem avail _ _)
    refine ⟨List.Nodup.erase _ h1, ?_, ?_, by simp⟩
    · rw [List.nodup_append]
      refine ⟨h2, List.nodup_singleton _, ?_⟩
      intro a ha hab
      simp only [List.mem_singleton] at hab
      exact (h3 a ha) (hab ▸ hexm)
    · intro x hx
      rcases List.mem_append.mp hx with hx | hx
      · intro hc
        exact (h3 x hx) (List.erase_subset _ _ hc)
      · simp only [List.mem_singleton] at hx
        subst hx
        intro hc
        exact ((List.Nodup.mem_erase_iff h1).mp hc).1 rfl

theorem selectStep_invariant (s : SelState) (h1 : s.pool.Nodup)
    (h2 : s.selected.Nodup) (h3 : ∀ x ∈ s.selected, x ∉ s.pool) :
    (selectStep s).pool.Nodup ∧ (selectStep s).selected.Nodup ∧
      (∀ x ∈ (selectStep s).selected, x ∉ (selectStep s).pool) ∧
      (selectStep s).selected.length ≤ s.selected.length + 1 := by
  unfold selectStep
  split
  · exact selectFrom_invariant s [] s.pool (fun x hx => hx) h1 h2 h3
  · exact selectFrom_invariant s s.used (availablePool s)
      (fun x hx => List.mem_of_mem_filter hx) h1 h2 h3

theorem selectLoop_invariant (n : ℕ) :
    ∀ s : SelState, s.pool.Nodup → s.selected.Nodup →
      (∀ x ∈ s.selected, x ∉ s.pool) →
      (selectLoop n s).selected.Nodup ∧
        (selectLoop n s).selected.length ≤ s.selected.length + n := by
  induction n with
  | zero =>
    intro s h1 h2 h3
    exact ⟨h2, by simp [selectLoop]⟩
  | succ n ih =>
    intro s h1 h2 h3
    have hstep := selectStep_invariant s h1 h2 h3
    have hrec := ih (selectStep s) hstep.1 hstep.2.1 hstep.2.2.1
    refine ⟨hrec.1, ?_⟩
    calc (selectLoop n (selectStep s)).selected.length
        ≤ (selectStep s).selected.length + n := hrec.2
      _ ≤ s.selected.length + 1 + n := by omega
      _ = s.selected.length + (n + 1) := by omega

/-- Claim C7: in every workout plan produced by `create_workout_plan` over a
duplicate-free catalog, the selected exercises are pairwise distinct and
number at most `target_exercise_count = max(3, min(duration_minutes // 3,
10))`; in particular duration 45 gives target 10 and duration 6 gives
target 3. -/
theorem c7_workout_selection (catalog : List Exercise) (hnd : catalog.Nodup)
    (fitness_level : String) (target_muscles : Option (List String))
    (workout_type : String) (duration_minutes : ℤ) (equipment : Option String)
    (rng : List ℕ) :
    ((workoutPlanExercises (createWorkoutPlan catalog fitness_level target_muscles
        workout_type duration_minutes equipment rng)).map
          (fun we => we.exercise)).Nodup ∧
    (workoutPlanExercises (createWorkoutPlan catalog fitness_level target_muscles
        workout_type duration_minutes equipment rng)).length
      ≤ (targetExerciseCount duration_minutes).toNat ∧
    targetExerciseCount 45 = 10 ∧ targetExerciseCount 6 = 3 := by
  have hfnd : (workoutFiltered catalog fitness_level target_muscles workout_type
      equipment).Nodup :=
    List.Nodup.sublist
      ((musclesFilter_sublist _ _).trans ((equipFilter_sublist _ _).trans
        ((typeFilter_sublist _ _).trans (levelFilter_sublist _ _)))) hnd
  have hinv := selectLoop_invariant (targetExerciseCount duration_minutes).toNat
    { selected := [], used := [],
      pool := workoutFiltered catalog fitness_level target_muscles workout_type equipment,
      rng := rng }
    hfnd List.nodup_nil (by intro x hx; exact absurd hx (List.not_mem_nil x))
  have hexs : ∀ r : WorkoutResult,
      r = createWorkoutPlan catalog fitness_level target_muscles workout_type
        duration_minutes equipment rng →
      workoutPlanExercises r = [] ∨
        workoutPlanExercises r = workoutExercisesList catalog fitness_level
          target_muscles workout_type duration_minutes equipment rng := by
    intro r hr
    unfold createWorkoutPlan at hr
    split at hr
    · left; rw [hr]; rfl
    · split at hr
      · left; rw [hr]; rfl
      · right; rw [hr]; rfl
  rcases hexs _ rfl with h | h <;> rw [h]
  · exact ⟨List.nodup_nil, by simp, by decide, by decide⟩
  · refine ⟨?_, ?_, by decide, by decide⟩
    · unfold workoutExercisesList
      rw [List.map_map]
      have hid : ((fun we : WorkoutExercise => we.exercise) ∘ fun ex : Exercise =>
          ({ exercise := ex,
             sets := (calculateSetsReps ex.category fitness_level).1,
             reps := (calculateSetsReps ex.category fitness_level).2,
             rest_seconds := if ex.category = "strength" then 60 else 30 }
            : WorkoutExercise)) = fun ex : Exercise => ex := rfl
      rw [hid, List.map_id']
      exact hinv.1
    · unfold workoutExercisesList
      rw [List.length_map]
      simpa using hinv.2

/-- Witness for C7 on a one-entry duplicate-free catalog. -/
theorem c7_workout_selection_witness :
    ([⟨"Push Ups", "strength", "beginner", "body only", ["chest"], [], []⟩] :
        List Exercise).Nodup ∧
    ((workoutPlanExercises (createWorkoutPlan
        [⟨"Push Ups", "strength", "beginner", "body only", ["chest"], [], []⟩]
        "beginner" Option.none "strength" 45 Option.none [0])).map
          (fun we => we.exercise)).Nodup :=
  ⟨by decide,
    (c7_workout_selection
      [⟨"Push Ups", "strength", "beginner", "body only", ["chest"], [], []⟩]
      (by decide) "beginner" Option.none "strength" 45 Option.none [0]).1⟩

/-! ## Dynamic argument layer (claim C9)

The tool functions are called by the agent layer with arbitrary Python
objects.  `PyVal` models the dynamically typed arguments; operations that
Python would fault on (attribute errors on non-strings, arithmetic on
non-numbers, unhashable dict keys, `range` on floats) are modelled as
`Except` errors, and the `try/except` at each operation boundary converts any
such error into the error envelope. -/

/-- A dynamically typed Python value. -/
inductive PyVal where
  | intV (n : ℤ)
  | floatV (q : ℚ)
  | strV (s : String)
  | listV (xs : List PyVal)
  | dictV (entries : List (String × PyVal))
  | noneV

/-- Coerce to a number, as Python arithmetic would (fault otherwise). -/
def pyToNum : PyVal → Except String ℚ
  | PyVal.intV n => Except.ok (n : ℚ)
  | PyVal.floatV q => Except.ok q
  | _ => Except.error "unsupported operand type(s)"

/-- Embeds `.lower()` (faults on non-strings). -/
def pyLowerE : PyVal → Except String String
  | PyVal.strV s => Except.ok (pyLower s)
  | _ => Except.error "object has no attribute lower"

/-- Python `==` between a value and a string literal (never faults). -/
def pyValEqStr : PyVal → String → Bool
  | PyVal.strV t, s => t == s
  | _, _ => false

/-- Embeds `activity_multipliers.get(activity_level, 1.55)`: unhashable keys fault,
any other non-matching key silently yields the default. -/
def activityMultiplierDyn : PyVal → Except String ℚ
  | PyVal.listV _ => Except.error "unhashable type: list"
  | PyVal.dictV _ => Except.error "unhashable type: dict"
  | PyVal.strV s => Except.ok (activityMultiplier s)
  | _ => Except.ok 1.55

/-- One macronutrient dictionary of the returned data. -/
def macroDict (cal grams pct : ℤ) : PyVal :=
  PyVal.dictV [("calories", PyVal.intV cal), ("grams", PyVal.intV grams),
    ("percentage", PyVal.intV pct)]

/-- The `try` body of `calculate_daily_calories` over dynamic arguments. -/
def calcBody (w h a g al goal : PyVal) : Except String PyVal := do
  let gs ← pyLowerE g
  let wq ← pyToNum w
  let hq ← pyToNum h
  let aq ← pyToNum a
  let bmr : ℚ := if gs = "male" then 10 * wq + 6.25 * hq - 5 * aq + 5
    else 10 * wq + 6.25 * hq - 5 * aq - 161
  let mult ← activityMultiplierDyn al
  let tdee := bmr * mult
  let target : ℚ :=
    if pyValEqStr goal "weight_loss" then tdee - 500
    else if pyValEqStr goal "muscle_gain" then tdee + 300
    else tdee
  let pr : ℚ := if pyValEqStr goal "muscle_gain" then 0.30
    else if pyValEqStr goal "weight_loss" then 0.35 else 0.25
  let cr : ℚ := if pyValEqStr goal "muscle_gain" then 0.40
    else if pyValEqStr goal "weight_loss" then 0.30 else 0.45
  let fr : ℚ := if pyValEqStr goal "muscle_gain" then 0.30
    else if pyValEqStr goal "weight_loss" then 0.35 else 0.30
  Except.ok (PyVal.dictV
    [("bmr", PyVal.intV (pythonRound bmr)),
     ("tdee", PyVal.intV (pythonRound tdee)),
     ("target_calories", PyVal.intV (pythonRound target)),
     ("macronutrients", PyVal.dictV
       [("protein", macroDict (pythonRound (target * pr))
          (pythonRound (target * pr / 4)) (pythonRound (pr * 100))),
        ("carbohydrates", macroDict (pythonRound (target * cr))
          (pythonRound (target * cr / 4)) (pythonRound (cr * 100))),
        ("fats", macroDict (pythonRound (target * fr))
          (pythonRound (target * fr / 9)) (pythonRound (fr * 100)))]),
     ("goal", goal),
     ("activity_level", al)])

/-- Embeds `calculate_daily_calories` with its `try/except` boundary: any fault is
converted into the error envelope. -/
def calculateDailyCaloriesDyn (w h a g al goal : PyVal) : PyVal :=
  match calcBody w h a g al goal with
  | Except.ok d => PyVal.dictV [("status", PyVal.strV "success"), ("data", d)]
  | Except.error e => PyVal.dictV [("status", PyVal.strV "error"),
      ("error_message", PyVal.strV ("Calorie calculation failed: " ++ e))]

/-- Coerce to a plain string (faults where Python would call `.lower()` or
`.title()` on a non-string). -/
def asStr : PyVal → Except String String
  | PyVal.strV s => Except.ok s
  | _ => Except.error "object has no attribute lower"

/-- Python truthiness. -/
def pyTruthy : PyVal → Bool
  | PyVal.intV n => n != 0
  | PyVal.floatV q => q != 0
  | PyVal.strV s => s != ""
  | PyVal.listV xs => !xs.isEmpty
  | PyVal.dictV es => !es.isEmpty
  | PyVal.noneV => false

/-- Validate the `equipment` argument: falsy skips the filter, a truthy
non-string faults at `.lower()`. -/
def validateEquip (v : PyVal) : Except String (Option String) :=
  if pyTruthy v then
    match v with
    | PyVal.strV s => Except.ok (some s)
    | _ => Except.error "object has no attribute lower"
  else Except.ok Option.none

/-- Validate the `target_muscles` argument: falsy skips the filter, a list
must contain strings, a string iterates over its characters, anything else
faults as non-iterable. -/
def validateMuscles (v : PyVal) : Except String (Option (List String)) :=
  if pyTruthy v then
    match v with
    | PyVal.listV xs =>
      (xs.mapM (fun x => match x with
        | PyVal.strV s => Except.ok s
        | _ => Except.error "object has no attribute lower")).map some
    | PyVal.strV s => Except.ok (some (s.toList.map (fun c => String.mk [c])))
    | _ => Except.error "object is not iterable"
  else Except.ok Option.none

/-- Validate `duration_minutes`: ints work; floats reach `range()` and fault
there; everything else faults at the floor division. -/
def validateDuration : PyVal → Except String ℤ
  | PyVal.intV n => Except.ok n
  | PyVal.floatV _ => Except.error "float object cannot be interpreted as an integer"
  | _ => Except.error "unsupported operand type(s) for floor division"

/-- Argument validation phase of `create_workout_plan` over dynamic
arguments. -/
def workoutArgsE (fl tm wt dur eqp : PyVal) :
    Except String (String × Option (List String) × String × ℤ × Option String) := do
  let fls ← asStr fl
  let wts ← asStr wt
  let eqs ← validateEquip eqp
  let tms ← validateMuscles tm
  let durI ← validateDuration dur
  Except.ok (fls, tms, wts, durI, eqs)

/-- Serialize a catalog record back to a Python dictionary. -/
def serializeExercise (ex : Exercise) : PyVal :=
  PyVal.dictV
    [("name", PyVal.strV ex.name), ("category", PyVal.strV ex.category),
     ("level", PyVal.strV ex.level), ("equipment", PyVal.strV ex.equipment),
     ("primaryMuscles", PyVal.listV (ex.primaryMuscles.map PyVal.strV)),
     ("secondaryMuscles", PyVal.listV (ex.secondaryMuscles.map PyVal.strV)),
     ("instructions", PyVal.listV (ex.instructions.map PyVal.strV))]

/-- Serialize one workout exercise row. -/
def serializeWorkoutExercise (we : WorkoutExercise) : PyVal :=
  PyVal.dictV
    [("exercise", serializeExercise we.exercise), ("sets", PyVal.intV we.sets),
     ("reps", PyVal.strV we.reps), ("rest_seconds", PyVal.intV we.rest_seconds)]

/-- Serialize the typed workout result into the returned envelope. -/
def serializeWorkout : WorkoutResult → PyVal
  | WorkoutResult.error msg =>
    PyVal.dictV [("status", PyVal.strV "error"), ("error_message", PyVal.strV msg)]
  | WorkoutResult.success p =>
    PyVal.dictV
      [("status", PyVal.strV "success"),
       ("data", PyVal.dictV
         [("workout_plan", PyVal.dictV
           [("title", PyVal.strV p.title),
            ("duration_minutes", PyVal.intV p.duration_minutes),
            ("exercises", PyVal.listV (p.exercises.map serializeWorkoutExercise)),
            ("total_exercises", PyVal.intV (p.total_exercises : ℤ)),
            ("target_muscles",
              match p.target_muscles with
              | some mgs => PyVal.listV (mgs.map PyVal.strV)
              | Option.none => PyVal.strV "Full body"),
            ("equipment_needed", PyVal.strV p.equipment_needed),
            ("estimated_calories", PyVal.intV p.estimated_calories)])])]

/-- Embeds `create_workout_plan` with its `try/except` boundary over dynamic
arguments. -/
def createWorkoutPlanDyn (catalog : List Exercise) (fl tm wt dur eqp : PyVal)
    (rng : List ℕ) : PyVal :=
  match workoutArgsE fl tm wt dur eqp with
  | Except.ok args =>
    serializeWorkout (createWorkoutPlan catalog args.1 args.2.1 args.2.2.1
      args.2.2.2.1 args.2.2.2.2 rng)
  | Except.error e =>
    PyVal.dictV [("status", PyVal.strV "error"),
      ("error_message", PyVal.strV ("Workout plan creation failed: " ++ e))]

/-- The uniform result envelope: a dictionary with status "success" carrying
a "data" entry, or status "error" carrying an "error_message" string. -/
def envelopeOk (v : PyVal) : Prop :=
  (∃ entries, v = PyVal.dictV entries ∧
    entries.lookup "status" = some (PyVal.strV "success") ∧
    ∃ d, entries.lookup "data" = some d) ∨
  (∃ entries, v = PyVal.dictV entries ∧
    entries.lookup "status" = some (PyVal.strV "error") ∧
    ∃ m, entries.lookup "error_message" = some (PyVal.strV m))

/-- Claim C9: for every input, including non-numeric and otherwise malformed
parameters, `calculate_daily_calories` and `create_workout_plan` never raise
past the operation boundary: they always return a status/data or
status/error_message envelope. -/
theorem c9_envelope (w h a g al goal : PyVal) (catalog : List Exercise)
    (fl tm wt dur eqp : PyVal) (rng : List ℕ) :
    envelopeOk (calculateDailyCaloriesDyn w h a g al goal) ∧
    envelopeOk (createWorkoutPlanDyn catalog fl tm wt dur eqp rng) := by
  constructor
  · unfold calculateDailyCaloriesDyn
    cases hb : calcBody w h a g al goal with
    | ok d => exact Or.inl ⟨_, rfl, rfl, d, rfl⟩
    | error e => exact Or.inr ⟨_, rfl, rfl, _, rfl⟩
  · cases hb : workoutArgsE fl tm wt dur eqp with
    | ok args =>
      have h1 : createWorkoutPlanDyn catalog fl tm wt dur eqp rng
          = serializeWorkout (createWorkoutPlan catalog args.1 args.2.1 args.2.2.1
              args.2.2.2.1 args.2.2.2.2 rng) := by
        unfold createWorkoutPlanDyn
        rw [hb]
      rw [h1]
      cases createWorkoutPlan catalog args.1 args.2.1 args.2.2.1
          args.2.2.2.1 args.2.2.2.2 rng with
      | success p => exact Or.inl ⟨_, rfl, rfl, _, rfl⟩
      | error msg => exact Or.inr ⟨_, rfl, rfl, _, rfl⟩
    | error e =>
      have h1 : createWorkoutPlanDyn catalog fl tm wt dur eqp rng
          = PyVal.dictV [("status", PyVal.strV "error"),
              ("error_message", PyVal.strV ("Workout plan creation failed: " ++ e))] := by
        unfold createWorkoutPlanDyn
        rw [hb]
      rw [h1]
      exact Or.inr ⟨_, rfl, rfl, _, rfl⟩
